import Mathlib

/-!
Shallow embedding of `sherpa-onnx/csrc/online-lstm-transducer-model.cc` and
`c-api-examples/zipformer-c-api.c`, with theorems checking the
natural-language specification against the code.

Tensors are modelled as a shape (list of extents) together with a flat list
of element values; elements are modelled as integers, which is faithful for
the operations verified here (zero-filling and copying/aliasing existing
values are exact, value-preserving operations). Fallible paths (fatal
`exit(-1)` branches) are modelled as `Option`/explicit result types.
-/

namespace SherpaOnnx

/-- A tensor value: its dimensions and its flat element data. -/
structure Tensor where
  shape : List Int
  data : List Int
  deriving DecidableEq, Repr, Inhabited

/-! ## Metadata Reader: the SHERPA_ONNX_READ_META_DATA macro and C `atoi` -/

/-- C `isspace` for the default locale, as used by `atoi`. -/
def cIsSpace (c : Char) : Bool :=
  c = ' ' || c = '\t' || c = '\n' || c = '\x0b' || c = '\x0c' || c = '\r'

/-- Value of the leading run of decimal digits of a character list
(the digits consumed by C `atoi` after sign handling). -/
def atoiDigits (cs : List Char) : Nat :=
  (cs.takeWhile Char.isDigit).foldl (fun acc c => acc * 10 + (c.toNat - 48)) 0

/-- C `atoi`: skip leading whitespace, read an optional sign, then the
longest leading run of decimal digits; anything after that run is ignored,
and a string with no leading digit run parses to 0. -/
def atoiList (cs : List Char) : Int :=
  match cs with
  | [] => 0
  | c :: rest =>
    if c = '-' then -(atoiDigits rest : Int)
    else if c = '+' then (atoiDigits rest : Int)
    else (atoiDigits (c :: rest) : Int)

def atoi (s : String) : Int :=
  atoiList (s.data.dropWhile cIsSpace)

/-- Whether the string has a leading decimal-integer run: after optional
whitespace and an optional sign, the first character is a digit. -/
def hasLeadingDigitList (cs : List Char) : Bool :=
  match cs with
  | [] => false
  | c :: rest =>
    if c = '-' ∨ c = '+' then
      match rest with
      | [] => false
      | c2 :: _ => c2.isDigit
    else c.isDigit

def hasLeadingDigit (s : String) : Bool :=
  hasLeadingDigitList (s.data.dropWhile cIsSpace)

/-- The metadata map of a loaded model: `LookupCustomMetadataMapAllocated`
is lookup of the first binding of the key. -/
def lookupMeta (meta : List (String × String)) (key : String) : Option String :=
  (meta.find? (fun p => p.1 = key)).map Prod.snd

/-- Result of one SHERPA_ONNX_READ_META_DATA expansion: either the process
terminates via `exit(-1)` (`fatal`) or the parsed integer is stored (`ok`). -/
inductive ReadResult where
  | fatal : ReadResult
  | ok : Int → ReadResult
  deriving DecidableEq, Repr

/-- SHERPA_ONNX_READ_META_DATA(dst, key): look the key up in the metadata;
if absent, print and `exit(-1)`; otherwise `dst = atoi(value)`, and if
`dst <= 0`, print and `exit(-1)`; otherwise the value is stored. -/
def readMetaData (meta : List (String × String)) (key : String) : ReadResult :=
  match lookupMeta meta key with
  | none => ReadResult.fatal
  | some v =>
    let dst := atoi v
    if dst ≤ 0 then ReadResult.fatal else ReadResult.ok dst

/-- Non-fatal projection of `readMetaData`, for sequencing several reads:
`none` means the process has terminated. -/
def readKey (meta : List (String × String)) (key : String) : Option Int :=
  match readMetaData meta key with
  | ReadResult.fatal => none
  | ReadResult.ok v => some v

/-! ## Model Loader: configuration, session options, and the constructor -/

/-- OnlineTransducerModelConfig: file paths, thread count, debug flag. -/
structure OnlineTransducerModelConfig where
  encoder_filename : String
  decoder_filename : String
  joiner_filename : String
  num_threads : Int
  debug : Bool
  deriving DecidableEq, Repr

/-- Ort session options, as set by the constructor: intra-op and inter-op
thread counts. -/
structure SessionOptions where
  intra_op_num_threads : Int
  inter_op_num_threads : Int
  deriving DecidableEq, Repr

/-- A loaded Ort session: the model file it was created from and the
session options applied at creation. -/
structure Session where
  filename : String
  opts : SessionOptions
  deriving DecidableEq, Repr

/-- Session options built in the constructor body:
`SetIntraOpNumThreads(config.num_threads)` then
`SetInterOpNumThreads(config.num_threads)`. -/
def mkSessOpts (config : OnlineTransducerModelConfig) : SessionOptions :=
  { intra_op_num_threads := config.num_threads
    inter_op_num_threads := config.num_threads }

/-- The three sub-model sessions created by the constructor via
InitEncoder, InitDecoder, InitJoiner, each with the shared `sess_opts_`. -/
structure ModelSessions where
  encoder_sess : Session
  decoder_sess : Session
  joiner_sess : Session
  deriving DecidableEq, Repr

/-- OnlineLstmTransducerModel constructor: sets the intra-op and inter-op
thread counts from the single configured `num_threads`, then creates the
encoder, decoder and joiner sessions, all with the same `sess_opts_`. -/
def constructSessions (config : OnlineTransducerModelConfig) : ModelSessions :=
  let sess_opts := mkSessOpts config
  { encoder_sess := { filename := config.encoder_filename, opts := sess_opts }
    decoder_sess := { filename := config.decoder_filename, opts := sess_opts }
    joiner_sess := { filename := config.joiner_filename, opts := sess_opts } }

/-- The encoder dimensions read from the encoder model's metadata. -/
structure EncoderDims where
  num_encoder_layers : Int
  T : Int
  decode_chunk_len : Int
  rnn_hidden_size : Int
  d_model : Int
  deriving DecidableEq, Repr

/-- The decoder dimensions read from the decoder model's metadata. -/
structure DecoderDims where
  vocab_size : Int
  context_size : Int
  deriving DecidableEq, Repr

/-- InitEncoder's metadata reads, in source order; `none` models the
process having terminated via `exit(-1)` inside the macro. -/
def InitEncoder (meta : List (String × String)) : Option EncoderDims := do
  let n ← readKey meta "num_encoder_layers"
  let t ← readKey meta "T"
  let dcl ← readKey meta "decode_chunk_len"
  let r ← readKey meta "rnn_hidden_size"
  let d ← readKey meta "d_model"
  pure { num_encoder_layers := n, T := t, decode_chunk_len := dcl,
         rnn_hidden_size := r, d_model := d }

/-- InitDecoder's metadata reads, in source order. -/
def InitDecoder (meta : List (String × String)) : Option DecoderDims := do
  let v ← readKey meta "vocab_size"
  let c ← readKey meta "context_size"
  pure { vocab_size := v, context_size := c }

/-- Model construction after session creation: InitEncoder runs first, then
InitDecoder, then InitJoiner (which reads no metadata); a fatal read
terminates the sequence, so nothing after it executes. -/
def constructModel (encMeta decMeta : List (String × String)) :
    Option (EncoderDims × DecoderDims) := do
  let e ← InitEncoder encMeta
  let d ← InitDecoder decMeta
  pure (e, d)

/-! ## Recurrent State Manager -/

/-- StackStates: the placeholder in the source prints an "implement me"
diagnostic and returns a degenerate tensor created with element count 0 and
shape length 0, ignoring `states`. -/
def StackStates (_states : List Tensor) : Tensor :=
  { shape := [], data := [] }

/-- UnStackStates: the placeholder in the source prints an "implement me"
diagnostic and returns an empty vector, ignoring `states`. -/
def UnStackStates (_states : Tensor) : List Tensor :=
  []

/-- GetEncoderInitStates: builds a hidden tensor of shape
[num_encoder_layers, 1, d_model] and a cell tensor of shape
[num_encoder_layers, 1, rnn_hidden_size], fills both entirely with 0, and
returns the two-element vector [h, c]. -/
def GetEncoderInitStates (dims : EncoderDims) : List Tensor :=
  let kBatchSize : Int := 1
  let h : Tensor :=
    { shape := [dims.num_encoder_layers, kBatchSize, dims.d_model]
      data := List.replicate
        (dims.num_encoder_layers * kBatchSize * dims.d_model).toNat 0 }
  let c : Tensor :=
    { shape := [dims.num_encoder_layers, kBatchSize, dims.rnn_hidden_size]
      data := List.replicate
        (dims.num_encoder_layers * kBatchSize * dims.rnn_hidden_size).toNat 0 }
  [h, c]

/-! ## Encoder Runner and Decoder Input Builder -/

/-- RunEncoder: assembles the three encoder inputs as
(features, states[0], states[1]), runs the encoder session on exactly that
sequence, and returns the first output paired with the two-element next
state [second output, third output]. The session itself is the external
tensor-execution collaborator, passed as a function on tensor lists. -/
def RunEncoder (sess : List Tensor → List Tensor)
    (features : Tensor) (states : List Tensor) : Tensor × List Tensor :=
  let encoder_inputs := [features, states.getD 0 default, states.getD 1 default]
  let encoder_out := sess encoder_inputs
  (encoder_out.getD 0 default,
   [encoder_out.getD 1 default, encoder_out.getD 2 default])

/-- BuildDecoderInput: returns a tensor of shape [1, context_size] whose
data aliases the hypothesis buffer starting at
`hyp.data() + hyp.size() - context_size` for `context_size` elements, i.e.
the trailing `context_size` tokens (precondition: the hypothesis holds at
least `context_size` tokens; the source does not check this). -/
def BuildDecoderInput (context_size : Int) (hyp : List Int) : Tensor :=
  { shape := [1, context_size]
    data := hyp.drop (hyp.length - context_size.toNat) }

/-- Specification phrasing of "the last `n` tokens of the hypothesis in
their original order", written independently of the implementation, for
comparison with `BuildDecoderInput`. -/
def lastTokens (n : Nat) (l : List Int) : List Int :=
  (l.reverse.take n).reverse

/-- Specification phrasing of "the key is present and its value parses to a
positive integer", used to characterise the fatal-exit conditions. -/
def keyPositive (meta : List (String × String)) (key : String) : Prop :=
  ∃ v, lookupMeta meta key = some v ∧ 0 < atoi v

end SherpaOnnx

namespace ZipformerCApi

/-- Observable calls made by `main` in zipformer-c-api.c, in order. -/
inductive CEvent where
  | readWave
  | createRecognizer
  | freeWave
  | createStream
  | acceptWaveform
  | decodeStream
  | getResult
  | destroyResult
  | destroyStream
  | destroyRecognizer
  deriving DecidableEq, Repr

open CEvent

/-- The body of `main` in zipformer-c-api.c, as a trace of the C API calls
it performs plus its return value. The two fallible external calls —
SherpaOnnxReadWave and SherpaOnnxCreateOfflineRecognizer — are modelled by
whether each returns NULL (`false`) or a valid handle (`true`). -/
def zipformerMain (waveOk recognizerOk : Bool) : List CEvent × Int :=
  if !waveOk then
    ([readWave], -1)
  else if !recognizerOk then
    ([readWave, createRecognizer, freeWave], -1)
  else
    ([readWave, createRecognizer, createStream, acceptWaveform, decodeStream,
      getResult, destroyResult, destroyStream, destroyRecognizer, freeWave], 0)

end ZipformerCApi

namespace SherpaOnnx

theorem drop_length_sub (l : List Int) (n : Nat) :
    l.drop (l.length - n) = lastTokens n l := by
  rw [lastTokens, ← List.rtake_eq_reverse_take_reverse, List.rtake]

/-- C1: the claim `UnStackStates (StackStates states) = states` fails on
the code: both operations are unimplemented placeholders, and the
round trip of the singleton list holding a one-element state tensor
returns the empty list instead of the original list. -/
theorem unstack_stack_roundtrip_fails :
    UnStackStates (StackStates [{ shape := [1, 1, 1], data := [0] }]) ≠
      [({ shape := [1, 1, 1], data := [0] } : Tensor)] := by
  decide

/-- C2: for a hypothesis holding at least `context_size` tokens,
`BuildDecoderInput` returns a tensor of shape [1, context_size] whose data
is exactly the last `context_size` tokens of the hypothesis, in their
original order. -/
theorem BuildDecoderInput_last_tokens (cs : Nat) (hyp : List Int)
    (h : cs ≤ hyp.length) :
    (BuildDecoderInput (cs : Int) hyp).shape = [1, (cs : Int)] ∧
    (BuildDecoderInput (cs : Int) hyp).data.length = cs ∧
    (BuildDecoderInput (cs : Int) hyp).data = lastTokens cs hyp := by
  refine ⟨rfl, ?_, ?_⟩
  · simp [BuildDecoderInput, Nat.sub_sub_self h]
  · simp [BuildDecoderInput, drop_length_sub]

theorem BuildDecoderInput_last_tokens_witness :
    (2 : Nat) ≤ ([5, 6, 7, 8] : List Int).length ∧
      ((BuildDecoderInput ((2 : Nat) : Int) [5, 6, 7, 8]).shape =
          [1, ((2 : Nat) : Int)] ∧
        (BuildDecoderInput ((2 : Nat) : Int) [5, 6, 7, 8]).data.length = 2 ∧
        (BuildDecoderInput ((2 : Nat) : Int) [5, 6, 7, 8]).data =
          lastTokens 2 [5, 6, 7, 8]) :=
  ⟨by decide, BuildDecoderInput_last_tokens 2 [5, 6, 7, 8] (by decide)⟩

/-- C7: only the trailing `context_size` tokens are read: two hypotheses of
sufficient length agreeing on their last `context_size` tokens produce
identical decoder input tensors, whatever their earlier tokens are. -/
theorem BuildDecoderInput_only_reads_tail (cs : Nat) (h1 h2 : List Int)
    (hl1 : cs ≤ h1.length) (hl2 : cs ≤ h2.length)
    (hagree : lastTokens cs h1 = lastTokens cs h2) :
    BuildDecoderInput (cs : Int) h1 = BuildDecoderInput (cs : Int) h2 := by
  simp [BuildDecoderInput, drop_length_sub, hagree]

theorem BuildDecoderInput_only_reads_tail_witness :
    (2 : Nat) ≤ ([1, 2, 9, 9] : List Int).length ∧
      (2 : Nat) ≤ ([7, 9, 9] : List Int).length ∧
      lastTokens 2 [1, 2, 9, 9] = lastTokens 2 [7, 9, 9] ∧
      BuildDecoderInput ((2 : Nat) : Int) [1, 2, 9, 9] =
        BuildDecoderInput ((2 : Nat) : Int) [7, 9, 9] :=
  ⟨by decide, by decide, by decide,
    BuildDecoderInput_only_reads_tail 2 [1, 2, 9, 9] [7, 9, 9]
      (by decide) (by decide) (by decide)⟩

/-- C3: with positive dimensions from the metadata, GetEncoderInitStates
returns exactly two tensors: a hidden tensor of shape
[num_encoder_layers, 1, d_model] followed by a cell tensor of shape
[num_encoder_layers, 1, rnn_hidden_size], both filled entirely with 0. -/
theorem GetEncoderInitStates_zero (dims : EncoderDims)
    (hl : 0 < dims.num_encoder_layers) (hd : 0 < dims.d_model)
    (hr : 0 < dims.rnn_hidden_size) :
    ∃ h c, GetEncoderInitStates dims = [h, c] ∧
      h.shape = [dims.num_encoder_layers, 1, dims.d_model] ∧
      c.shape = [dims.num_encoder_layers, 1, dims.rnn_hidden_size] ∧
      h.data.length = (dims.num_encoder_layers * 1 * dims.d_model).toNat ∧
      c.data.length =
        (dims.num_encoder_layers * 1 * dims.rnn_hidden_size).toNat ∧
      (∀ x ∈ h.data, x = 0) ∧ ∀ x ∈ c.data, x = 0 := by
  refine ⟨_, _, rfl, rfl, rfl, ?_, ?_, ?_, ?_⟩
  · simp [GetEncoderInitStates]
  · simp [GetEncoderInitStates]
  · intro x hx
    exact List.eq_of_mem_replicate hx
  · intro x hx
    exact List.eq_of_mem_replicate hx

theorem GetEncoderInitStates_zero_witness :
    (0 : Int) < (3 : Int) ∧
      (∃ h c,
        GetEncoderInitStates
            { num_encoder_layers := 3, T := 9, decode_chunk_len := 4,
              rnn_hidden_size := 8, d_model := 4 } = [h, c] ∧
          h.shape = [3, 1, 4] ∧ c.shape = [3, 1, 8] ∧
          h.data.length = ((3 : Int) * 1 * 4).toNat ∧
          c.data.length = ((3 : Int) * 1 * 8).toNat ∧
          (∀ x ∈ h.data, x = 0) ∧ ∀ x ∈ c.data, x = 0) :=
  ⟨by decide,
    GetEncoderInitStates_zero
      { num_encoder_layers := 3, T := 9, decode_chunk_len := 4,
        rnn_hidden_size := 8, d_model := 4 }
      (by decide) (by decide) (by decide)⟩

/-- C8: the constructor applies the single configured `num_threads` as both
the intra-op and the inter-op thread count, and the same session options
are used for the encoder, decoder and joiner sessions. -/
theorem constructSessions_thread_counts (config : OnlineTransducerModelConfig) :
    mkSessOpts config =
      { intra_op_num_threads := config.num_threads
        inter_op_num_threads := config.num_threads } ∧
    (constructSessions config).encoder_sess.opts = mkSessOpts config ∧
    (constructSessions config).decoder_sess.opts = mkSessOpts config ∧
    (constructSessions config).joiner_sess.opts = mkSessOpts config :=
  ⟨rfl, rfl, rfl, rfl⟩

/-- C4: a metadata read is fatal exactly when the key is absent or its
value parses to an integer at most 0, and it stores a value exactly when
the key is present with a positive parse, storing that integer. -/
theorem readMetaData_fatal_iff (meta : List (String × String)) (key : String) :
    (readMetaData meta key = ReadResult.fatal ↔
      lookupMeta meta key = none ∨
        ∃ v, lookupMeta meta key = some v ∧ atoi v ≤ 0) ∧
    ∀ n : Int, readMetaData meta key = ReadResult.ok n ↔
      ∃ v, lookupMeta meta key = some v ∧ atoi v = n ∧ 0 < n := by
  cases hv : lookupMeta meta key with
  | none =>
    refine ⟨?_, fun n => ?_⟩
    · simp [readMetaData, hv]
    · simp [readMetaData, hv]
  | some v =>
    by_cases hle : atoi v ≤ 0
    · refine ⟨?_, fun n => ?_⟩
      · simp only [readMetaData, hv, if_pos hle]
        exact ⟨fun _ => Or.inr ⟨v, rfl, hle⟩, fun _ => trivial⟩
      · simp only [readMetaData, hv, if_pos hle]
        constructor
        · intro hcontra
          exact absurd hcontra (by simp)
        · rintro ⟨v2, hv2, hn, hpos⟩
          rw [Option.some_inj] at hv2
          subst hv2
          omega
    · refine ⟨?_, fun n => ?_⟩
      · simp only [readMetaData, hv, if_neg hle]
        constructor
        · intro hcontra
          exact absurd hcontra (by simp)
        · rintro (hcontra | ⟨v2, hv2, hle2⟩)
          · exact absurd hcontra (by simp)
          · rw [Option.some_inj] at hv2
            subst hv2
            omega
      · simp only [readMetaData, hv, if_neg hle, ReadResult.ok.injEq]
        constructor
        · rintro rfl
          exact ⟨v, rfl, rfl, by omega⟩
        · rintro ⟨v2, hv2, hn, hpos⟩
          rw [Option.some_inj] at hv2
          subst hv2
          exact hn

/-- C5: RunEncoder runs the encoder session on exactly the input sequence
(features, hidden state, cell state) and, when the session yields the three
outputs, returns the first output paired with the two-element next state
made of the second output followed by the third. -/
theorem RunEncoder_wiring (sess : List Tensor → List Tensor)
    (features s0 s1 o0 o1 o2 : Tensor)
    (h : sess [features, s0, s1] = [o0, o1, o2]) :
    RunEncoder sess features [s0, s1] = (o0, [o1, o2]) := by
  simp [RunEncoder, h]

theorem RunEncoder_wiring_witness :
    (fun l : List Tensor => [({ shape := [1], data := [10] } : Tensor),
        { shape := [1], data := [11] }, { shape := [1], data := [12] }])
        [{ shape := [1], data := [1] }, { shape := [1], data := [2] },
          { shape := [1], data := [3] }] =
      [({ shape := [1], data := [10] } : Tensor),
        { shape := [1], data := [11] }, { shape := [1], data := [12] }] ∧
    RunEncoder
        (fun l : List Tensor => [({ shape := [1], data := [10] } : Tensor),
          { shape := [1], data := [11] }, { shape := [1], data := [12] }])
        { shape := [1], data := [1] }
        [{ shape := [1], data := [2] }, { shape := [1], data := [3] }] =
      ({ shape := [1], data := [10] },
        [({ shape := [1], data := [11] } : Tensor),
          { shape := [1], data := [12] }]) :=
  ⟨rfl,
    RunEncoder_wiring
      (fun l : List Tensor => [({ shape := [1], data := [10] } : Tensor),
        { shape := [1], data := [11] }, { shape := [1], data := [12] }])
      { shape := [1], data := [1] } { shape := [1], data := [2] }
      { shape := [1], data := [3] } { shape := [1], data := [10] }
      { shape := [1], data := [11] } { shape := [1], data := [12] } rfl⟩

theorem readKey_isSome_iff (meta : List (String × String)) (key : String) :
    (readKey meta key).isSome ↔ keyPositive meta key := by
  cases hv : lookupMeta meta key with
  | none => simp [readKey, readMetaData, hv, keyPositive]
  | some v =>
    by_cases hle : atoi v ≤ 0
    · simp [readKey, readMetaData, hv, hle, keyPositive]
    · simp [readKey, readMetaData, hv, hle, keyPositive]
      omega

theorem InitEncoder_isSome (meta : List (String × String)) :
    (InitEncoder meta).isSome ↔
      keyPositive meta "num_encoder_layers" ∧ keyPositive meta "T" ∧
      keyPositive meta "decode_chunk_len" ∧
      keyPositive meta "rnn_hidden_size" ∧ keyPositive meta "d_model" := by
  rw [← readKey_isSome_iff, ← readKey_isSome_iff, ← readKey_isSome_iff,
    ← readKey_isSome_iff, ← readKey_isSome_iff]
  cases h1 : readKey meta "num_encoder_layers" <;>
    cases h2 : readKey meta "T" <;>
    cases h3 : readKey meta "decode_chunk_len" <;>
    cases h4 : readKey meta "rnn_hidden_size" <;>
    cases h5 : readKey meta "d_model" <;>
    simp [InitEncoder, h1, h2, h3, h4, h5]

theorem InitDecoder_isSome (meta : List (String × String)) :
    (InitDecoder meta).isSome ↔
      keyPositive meta "vocab_size" ∧ keyPositive meta "context_size" := by
  rw [← readKey_isSome_iff, ← readKey_isSome_iff]
  cases h1 : readKey meta "vocab_size" <;>
    cases h2 : readKey meta "context_size" <;>
    simp [InitDecoder, h1, h2]

/-- C6: construction succeeds exactly when all seven required metadata keys
are present with positive integer values — num_encoder_layers, T,
decode_chunk_len, rnn_hidden_size, d_model from the encoder and vocab_size,
context_size from the decoder — and in particular a decoder metadata map
lacking vocab_size makes construction terminate fatally. -/
theorem constructModel_required_keys (encMeta decMeta : List (String × String)) :
    ((constructModel encMeta decMeta).isSome ↔
      keyPositive encMeta "num_encoder_layers" ∧ keyPositive encMeta "T" ∧
      keyPositive encMeta "decode_chunk_len" ∧
      keyPositive encMeta "rnn_hidden_size" ∧ keyPositive encMeta "d_model" ∧
      keyPositive decMeta "vocab_size" ∧
      keyPositive decMeta "context_size") ∧
    (lookupMeta decMeta "vocab_size" = none →
      constructModel encMeta decMeta = none) := by
  have hsplit : (constructModel encMeta decMeta).isSome ↔
      (InitEncoder encMeta).isSome ∧ (InitDecoder decMeta).isSome := by
    cases he : InitEncoder encMeta <;> cases hd : InitDecoder decMeta <;>
      simp [constructModel, he, hd]
  constructor
  · rw [hsplit, InitEncoder_isSome, InitDecoder_isSome]
    tauto
  · intro hnone
    have hvk : readKey decMeta "vocab_size" = none := by
      simp [readKey, readMetaData, hnone]
    cases he : InitEncoder encMeta <;>
      simp [constructModel, he, InitDecoder, hvk]

theorem constructModel_required_keys_witness :
    lookupMeta [("context_size", "2")] "vocab_size" = none ∧
      constructModel
          [("num_encoder_layers", "3"), ("T", "9"), ("decode_chunk_len", "4"),
            ("rnn_hidden_size", "8"), ("d_model", "4")]
          [("context_size", "2")] = none :=
  ⟨by decide,
    (constructModel_required_keys
        [("num_encoder_layers", "3"), ("T", "9"), ("decode_chunk_len", "4"),
          ("rnn_hidden_size", "8"), ("d_model", "4")]
        [("context_size", "2")]).2 (by decide)⟩

theorem atoiDigits_head_not_digit (c : Char) (cs : List Char)
    (h : c.isDigit = false) : atoiDigits (c :: cs) = 0 := by
  simp [atoiDigits, List.takeWhile_cons, h]

theorem atoiList_eq_zero_of_no_leading (cs : List Char)
    (h : hasLeadingDigitList cs = false) : atoiList cs = 0 := by
  cases cs with
  | nil => rfl
  | cons c rest =>
    simp only [hasLeadingDigitList] at h
    simp only [atoiList]
    by_cases hsign : c = '-' ∨ c = '+'
    · rw [if_pos hsign] at h
      rcases hsign with h1 | h1 <;> subst h1
      · rw [if_pos rfl]
        cases rest with
        | nil => simp [atoiDigits]
        | cons c2 rest2 => simp [atoiDigits_head_not_digit c2 rest2 h]
      · rw [if_neg (by decide : ¬('+' : Char) = '-'), if_pos rfl]
        cases rest with
        | nil => simp [atoiDigits]
        | cons c2 rest2 => simp [atoiDigits_head_not_digit c2 rest2 h]
    · rw [if_neg hsign] at h
      have hc1 : ¬ c = '-' := fun hh => hsign (Or.inl hh)
      have hc2 : ¬ c = '+' := fun hh => hsign (Or.inr hh)
      rw [if_neg hc1, if_neg hc2, atoiDigits_head_not_digit c rest h]
      exact Int.natCast_zero

theorem atoi_eq_zero_of_no_leading_digit (s : String)
    (h : hasLeadingDigit s = false) : atoi s = 0 :=
  atoiList_eq_zero_of_no_leading (s.data.dropWhile cIsSpace) h

/-- C9: metadata parsing has atoi semantics: a present value with no
leading decimal-integer run parses to 0 and takes the fatal non-positive
branch, while the value "3x" — a positive integer run followed by trailing
junk — is accepted as 3; the parser need not consume the whole string. -/
theorem readMetaData_atoi_semantics (k s : String)
    (h : hasLeadingDigit s = false) :
    atoi s = 0 ∧ readMetaData [(k, s)] k = ReadResult.fatal ∧
      readMetaData [(k, "3x")] k = ReadResult.ok 3 := by
  have h0 := atoi_eq_zero_of_no_leading_digit s h
  refine ⟨h0, ?_, ?_⟩
  · simp [readMetaData, lookupMeta, h0]
  · have h3 : atoi "3x" = 3 := by decide
    simp [readMetaData, lookupMeta, h3]

theorem readMetaData_atoi_semantics_witness :
    hasLeadingDigit "abc" = false ∧
      (atoi "abc" = 0 ∧
        readMetaData [("vocab_size", "abc")] "vocab_size" =
          ReadResult.fatal ∧
        readMetaData [("vocab_size", "3x")] "vocab_size" =
          ReadResult.ok 3) :=
  ⟨by decide, readMetaData_atoi_semantics "vocab_size" "abc" (by decide)⟩

end SherpaOnnx

namespace ZipformerCApi

/-- C10: in the zipformer example's main, a failed wave read returns -1
after only the read call, with no recognizer ever created; a failed
recognizer creation frees the wave and returns -1 without creating a
stream or calling any decoding function. -/
theorem zipformerMain_early_failure (waveOk recognizerOk : Bool) :
    (waveOk = false →
      zipformerMain waveOk recognizerOk = ([CEvent.readWave], -1) ∧
        CEvent.createRecognizer ∉ (zipformerMain waveOk recognizerOk).1) ∧
    (waveOk = true → recognizerOk = false →
      zipformerMain waveOk recognizerOk =
          ([CEvent.readWave, CEvent.createRecognizer, CEvent.freeWave], -1) ∧
        CEvent.createStream ∉ (zipformerMain waveOk recognizerOk).1 ∧
        CEvent.acceptWaveform ∉ (zipformerMain waveOk recognizerOk).1 ∧
        CEvent.decodeStream ∉ (zipformerMain waveOk recognizerOk).1 ∧
        CEvent.getResult ∉ (zipformerMain waveOk recognizerOk).1) := by
  cases waveOk <;> cases recognizerOk <;> exact ⟨by decide, by decide⟩

theorem zipformerMain_early_failure_witness :
    zipformerMain false false = ([CEvent.readWave], -1) ∧
      zipformerMain true false =
        ([CEvent.readWave, CEvent.createRecognizer, CEvent.freeWave], -1) :=
  ⟨((zipformerMain_early_failure false false).1 rfl).1,
    ((zipformerMain_early_failure true false).2 rfl rfl).1⟩

end ZipformerCApi
